import Mathlib

/-!
Verification of the NFT simulation operations (`x/nft/simulation/operations.go`).

The four operation generators `SimulateMsgTransferNFT`, `SimulateMsgEditNFTMetadata`,
`SimulateMsgMintNFT` and `SimulateMsgBurnNFT` are translated directly from the Go
source.  Collaborators that the source consumes but whose code is not part of the
source under verification (the NFT sampler `getRandomNFTFromOwner`, the random-source
utilities `RandomAcc`/`RandomFees`/`RandStringOfLength`, the transaction packager
`GenTx`, and account lookup) are modelled from the specification's contracts, with a
doc comment noting so; the execution engine (`app.Deliver`) is an external black box
and is passed in as a function parameter.

Each run is embedded as a pure function producing a `RunResult`: the returned
`OperationMsg` and error of the Go function, plus a trace recording the message that
was built (if any), the acting account's address at fee time (if reached), and the
list of transactions handed to the execution engine, in order.
-/

namespace NFTSim

/-- An `sdk.AccAddress` is a byte slice; `Empty()` tests for zero length. -/
abbrev Addr := List Nat

/-- Rendering of an address inside error text (`fmt.Errorf("account %s not found", ...)`);
the exact rendering is opaque to the claims. -/
def addrStr (a : Addr) : String := toString a

/-- Modelled from the spec: the pseudo-random source is "passed explicitly" and
"advanced by every sampling/generation call".  It is embedded as the stream of values
the source will produce; a draw consumes the head (reduced modulo the requested bound)
and returns the advanced source.  An exhausted stream draws 0. -/
abbrev Rand := List Nat

/-- One draw from the random source: the next value reduced modulo `n`, plus the
advanced source. -/
def randDraw (r : Rand) (n : Nat) : Nat × Rand :=
  match r with
  | [] => (0, [])
  | x :: rest => (x % n, rest)

/-- A `simulation.Account`: an address and its signing credential. -/
structure Account where
  address : Addr
  privKey : Nat
  deriving DecidableEq

/-- The account record the account keeper resolves an address to: spendable coins as a
function of the block time, the account number and the sequence number.  The spendable
balance is abstracted to a single amount, per the spec's "spendable balance". -/
structure AuthAccount where
  spendableAt : Nat → Nat
  accountNumber : Nat
  sequence : Nat

/-- The simulation context: the current logical block time. -/
structure Context where
  blockTime : Nat
  deriving DecidableEq

/-- The account keeper collaborator (`ak.GetAccount`). -/
structure AccountKeeper where
  getAccount : Context → Addr → AuthAccount

/-- One owner row of the ledger's ownership table: an address and the (denom, id)
pairs of the NFTs it owns. -/
structure Owner where
  address : Addr
  nfts : List (String × String)
  deriving DecidableEq

/-- The NFT keeper collaborator, consumed as the query "list all owners". -/
structure Keeper where
  getOwners : Context → List Owner

/-- Modelled from the spec (the sampler `getRandomNFTFromOwner` is not among the
source files): "enumerate owners with at least one NFT, pick one uniformly at random
..., then pick one of that owner's NFTs uniformly at random.  Edge case: if the ledger
currently holds zero NFTs, return the empty sentinel." -/
def getRandomNFTFromOwner (ctx : Context) (k : Keeper) (r : Rand) :
    Addr × String × String × Rand :=
  let owners := (k.getOwners ctx).filter (fun o => !o.nfts.isEmpty)
  if owners.isEmpty then ([], "", "", r)
  else
    match randDraw r owners.length with
    | (i, r) =>
      let owner := owners.getD i ⟨[], []⟩
      match randDraw r owner.nfts.length with
      | (j, r) =>
        match owner.nfts.getD j ("", "") with
        | (denom, nftID) => (owner.address, denom, nftID, r)

/-- Modelled from the spec (`simulation.RandomAcc` is not among the source files):
pick one account uniformly from the known simulation accounts. -/
def randomAcc (r : Rand) (accs : List Account) : Account × Rand :=
  match randDraw r accs.length with
  | (i, r) => (accs.getD i ⟨[], 0⟩, r)

/-- `simulation.FindAccount`: look an address up among the known simulation accounts. -/
def findAccount (accs : List Account) (a : Addr) : Option Account :=
  accs.find? (fun acc => acc.address == a)

/-- The error text of a failed fee resolution. -/
def feeErrMsg : String := "no coins found for random fees"

/-- Modelled from the spec (`simulation.RandomFees` is not among the source files):
"resolve ... a random fee affordable from its current spendable balance"; "if no
affordable fee combination exists (e.g. zero balance), the resolver fails with an
InsufficientFunds-class error".  On success the fee drawn is between 1 and the
spendable balance. -/
def randomFees (r : Rand) (spendable : Nat) : Except String (Nat × Rand) :=
  if spendable = 0 then .error feeErrMsg
  else
    match randDraw r spendable with
    | (x, r) => .ok (x + 1, r)

/-- The alphabet random strings are drawn from. -/
def alphabet : List Char :=
  "abcdefghijklmnopqrstuvwxyzABCDEFGHIJKLMNOPQRSTUVWXYZ".toList

/-- Modelled from the spec (`simulation.RandStringOfLength` is not among the source
files): generate the characters of a random string of the given length, one draw per
character. -/
def randCharsOfLength : Rand → Nat → List Char × Rand
  | r, 0 => ([], r)
  | r, n + 1 =>
    match randDraw r alphabet.length with
    | (x, r) =>
      match randCharsOfLength r n with
      | (cs, r) => (alphabet.getD x 'a' :: cs, r)

/-- Modelled from the spec: `RandStringOfLength r n` produces a random string of
length `n`. -/
def randStringOfLength (r : Rand) (n : Nat) : String × Rand :=
  match randCharsOfLength r n with
  | (cs, r) => (⟨cs⟩, r)

/-- The tagged request variants, with the field orders of the Go constructors
`NewMsgTransferNFT`, `NewMsgEditNFTMetadata`, `NewMsgMintNFT`, `NewMsgBurnNFT`. -/
inductive Msg where
  | transferNFT (sender recipient : Addr) (denom nftID : String)
  | editNFTMetadata (owner : Addr) (nftID denom tokenURI : String)
  | mintNFT (sender recipient : Addr) (nftID denom tokenURI : String)
  | burnNFT (owner : Addr) (nftID denom : String)
  deriving DecidableEq

/-- A signed transaction, as assembled by `helpers.GenTx`. -/
structure Tx where
  msgs : List Msg
  fee : Nat
  chainID : String
  accountNumbers : List Nat
  sequences : List Nat
  privKeys : List Nat
  deriving DecidableEq

/-- Modelled from the spec (`helpers.GenTx` is not among the source files): "package
the Request plus the resolver's fee/sequence/account-number into a signed transaction
addressed to the current chain/session identifier". -/
def genTx (msgs : List Msg) (fee : Nat) (chainID : String)
    (accountNumbers sequences privKeys : List Nat) : Tx :=
  ⟨msgs, fee, chainID, accountNumbers, sequences, privKeys⟩

/-- The execution engine's raw result: the ok flag (`res.IsOK()`) and the diagnostic
log text (`res.Log`). -/
structure DeliverResult where
  ok : Bool
  log : String
  deriving DecidableEq

/-- `types.ModuleName` of the NFT module. -/
def moduleName : String := "nft"

/-- A `simulation.OperationMsg`: either `NoOpMsg(module)` or
`NewOperationMsg(msg, ok, comment)`. -/
inductive OperationMsg where
  | noOp (route : String)
  | op (msg : Msg) (ok : Bool) (comment : String)
  deriving DecidableEq

/-- The result of one operation invocation: the `(OperationMsg, []FutureOperation,
error)` triple the Go function returns, plus a trace of the invocation — the request
built (if construction was reached), the acting account's address at fee-resolution
time (if reached), and the transactions handed to `app.Deliver`, in order. -/
structure RunResult where
  opMsg : OperationMsg
  futureOps : List Unit
  err : Option String
  builtMsg : Option Msg
  actor : Option Addr
  delivered : List Tx
  deriving DecidableEq

/-- `SimulateMsgTransferNFT`, translated line by line from the source. -/
def simulateMsgTransferNFT (ak : AccountKeeper) (k : Keeper)
    (deliver : Tx → DeliverResult) (r : Rand) (ctx : Context)
    (accs : List Account) (chainID : String) : RunResult :=
  match getRandomNFTFromOwner ctx k r with
  | (ownerAddr, denom, nftID, r) =>
    if ownerAddr.isEmpty then
      { opMsg := .noOp moduleName, futureOps := [], err := none,
        builtMsg := none, actor := none, delivered := [] }
    else
      match randomAcc r accs with
      | (recipientAccount, r) =>
        match findAccount accs ownerAddr with
        | none =>
          { opMsg := .noOp moduleName, futureOps := [],
            err := some ("account " ++ addrStr ownerAddr ++ " not found"),
            builtMsg := none, actor := none, delivered := [] }
        | some simAccount =>
          let account := ak.getAccount ctx simAccount.address
          match randomFees r (account.spendableAt ctx.blockTime) with
          | .error e =>
            { opMsg := .noOp moduleName, futureOps := [], err := some e,
              builtMsg := none, actor := some simAccount.address, delivered := [] }
          | .ok (fees, _) =>
            let msg := Msg.transferNFT ownerAddr recipientAccount.address denom nftID
            let tx := genTx [msg] fees chainID [account.accountNumber]
              [account.sequence] [simAccount.privKey]
            let res := deliver tx
            if !res.ok then
              { opMsg := .noOp moduleName, futureOps := [], err := some res.log,
                builtMsg := some msg, actor := some simAccount.address,
                delivered := [tx] }
            else
              { opMsg := .op msg true "", futureOps := [], err := none,
                builtMsg := some msg, actor := some simAccount.address,
                delivered := [tx] }

/-- `SimulateMsgEditNFTMetadata`, translated line by line from the source. -/
def simulateMsgEditNFTMetadata (ak : AccountKeeper) (k : Keeper)
    (deliver : Tx → DeliverResult) (r : Rand) (ctx : Context)
    (accs : List Account) (chainID : String) : RunResult :=
  match getRandomNFTFromOwner ctx k r with
  | (ownerAddr, denom, nftID, r) =>
    if ownerAddr.isEmpty then
      { opMsg := .noOp moduleName, futureOps := [], err := none,
        builtMsg := none, actor := none, delivered := [] }
    else
      match findAccount accs ownerAddr with
      | none =>
        { opMsg := .noOp moduleName, futureOps := [],
          err := some ("account " ++ addrStr ownerAddr ++ " not found"),
          builtMsg := none, actor := none, delivered := [] }
      | some simAccount =>
        let account := ak.getAccount ctx simAccount.address
        match randomFees r (account.spendableAt ctx.blockTime) with
        | .error e =>
          { opMsg := .noOp moduleName, futureOps := [], err := some e,
            builtMsg := none, actor := some simAccount.address, delivered := [] }
        | .ok (fees, r) =>
          match randStringOfLength r 45 with
          | (tokenURI, _) =>
            let msg := Msg.editNFTMetadata ownerAddr nftID denom tokenURI
            let tx := genTx [msg] fees chainID [account.accountNumber]
              [account.sequence] [simAccount.privKey]
            let res := deliver tx
            if !res.ok then
              { opMsg := .noOp moduleName, futureOps := [], err := some res.log,
                builtMsg := some msg, actor := some simAccount.address,
                delivered := [tx] }
            else
              { opMsg := .op msg true "", futureOps := [], err := none,
                builtMsg := some msg, actor := some simAccount.address,
                delivered := [tx] }

/-- `SimulateMsgMintNFT`, translated line by line from the source.  (The NFT keeper
parameter `k` is accepted, as in the source, but never consulted.) -/
def simulateMsgMintNFT (ak : AccountKeeper) (_k : Keeper)
    (deliver : Tx → DeliverResult) (r : Rand) (ctx : Context)
    (accs : List Account) (chainID : String) : RunResult :=
  match randomAcc r accs with
  | (simAccount, r) =>
    match randomAcc r accs with
    | (recipientAccount, r) =>
      let account := ak.getAccount ctx simAccount.address
      match randomFees r (account.spendableAt ctx.blockTime) with
      | .error e =>
        { opMsg := .noOp moduleName, futureOps := [], err := some e,
          builtMsg := none, actor := some simAccount.address, delivered := [] }
      | .ok (fees, r) =>
        match randStringOfLength r 10 with
        | (nftID, r) =>
          match randStringOfLength r 10 with
          | (denom, r) =>
            match randStringOfLength r 45 with
            | (tokenURI, _) =>
              let msg := Msg.mintNFT simAccount.address recipientAccount.address
                nftID denom tokenURI
              let tx := genTx [msg] fees chainID [account.accountNumber]
                [account.sequence] [simAccount.privKey]
              let res := deliver tx
              if !res.ok then
                { opMsg := .noOp moduleName, futureOps := [], err := some res.log,
                  builtMsg := some msg, actor := some simAccount.address,
                  delivered := [tx] }
              else
                { opMsg := .op msg true "", futureOps := [], err := none,
                  builtMsg := some msg, actor := some simAccount.address,
                  delivered := [tx] }

/-- `SimulateMsgBurnNFT`, translated line by line from the source. -/
def simulateMsgBurnNFT (ak : AccountKeeper) (k : Keeper)
    (deliver : Tx → DeliverResult) (r : Rand) (ctx : Context)
    (accs : List Account) (chainID : String) : RunResult :=
  match getRandomNFTFromOwner ctx k r with
  | (ownerAddr, denom, nftID, r) =>
    if ownerAddr.isEmpty then
      { opMsg := .noOp moduleName, futureOps := [], err := none,
        builtMsg := none, actor := none, delivered := [] }
    else
      match findAccount accs ownerAddr with
      | none =>
        { opMsg := .noOp moduleName, futureOps := [],
          err := some ("account " ++ addrStr ownerAddr ++ " not found"),
          builtMsg := none, actor := none, delivered := [] }
      | some simAccount =>
        let account := ak.getAccount ctx simAccount.address
        match randomFees r (account.spendableAt ctx.blockTime) with
        | .error e =>
          { opMsg := .noOp moduleName, futureOps := [], err := some e,
            builtMsg := none, actor := some simAccount.address, delivered := [] }
        | .ok (fees, _) =>
          let msg := Msg.burnNFT ownerAddr nftID denom
          let tx := genTx [msg] fees chainID [account.accountNumber]
            [account.sequence] [simAccount.privKey]
          let res := deliver tx
          if !res.ok then
            { opMsg := .noOp moduleName, futureOps := [], err := some res.log,
              builtMsg := some msg, actor := some simAccount.address,
              delivered := [tx] }
          else
            { opMsg := .op msg true "", futureOps := [], err := none,
              builtMsg := some msg, actor := some simAccount.address,
              delivered := [tx] }

/-- A ledger snapshot in which no NFT has an owner: every owner row is empty. -/
def noOwnedNFTs (ctx : Context) (k : Keeper) : Bool :=
  (k.getOwners ctx).all (fun o => o.nfts.isEmpty)

/-- An invocation delivers at most once, and only a transaction carrying the one
request it built: the trace either contains no submission, or exactly the single
built message's transaction. -/
def atMostOneDeliver (res : RunResult) : Prop :=
  res.delivered.length ≤ 1 ∧
    (res.delivered = [] ∨
      ∃ tx m, res.builtMsg = some m ∧ tx.msgs = [m] ∧ res.delivered = [tx])

/-- The classification contract of the submission driver, for a run `res` that
submitted exactly the transaction `tx`: an execution result flagged ok yields the
Success operation message carrying the submitted request with a nil error, and a
non-ok result yields the NoOp operation message with the engine's log text, verbatim,
as the error. -/
def classified (deliver : Tx → DeliverResult) (res : RunResult) (tx : Tx) : Prop :=
  ∃ m, tx.msgs = [m] ∧
    (((deliver tx).ok = true ∧ res.opMsg = .op m true "" ∧ res.err = none) ∨
     ((deliver tx).ok = false ∧ res.opMsg = .noOp moduleName ∧
       res.err = some (deliver tx).log))

/-- The fee bound contract: every transaction a run hands to the execution engine
carries a fee no larger than the acting account's spendable balance at the context's
block time. -/
def feeWithinSpendable (ak : AccountKeeper) (ctx : Context) (res : RunResult) : Prop :=
  ∀ tx ∈ res.delivered,
    ∃ a, res.actor = some a ∧
      tx.fee ≤ (ak.getAccount ctx a).spendableAt ctx.blockTime

/- Concrete scenario pieces used by the witness theorems. -/

/-- Witness scenario: context at block time 0. -/
def wCtx : Context := ⟨0⟩

/-- Witness scenario: every account resolves to spendable balance 100. -/
def wAK : AccountKeeper := ⟨fun _ _ => ⟨fun _ => 100, 7, 3⟩⟩

/-- Witness scenario: every account resolves to spendable balance 0. -/
def wAKZero : AccountKeeper := ⟨fun _ _ => ⟨fun _ => 0, 7, 3⟩⟩

/-- Witness scenario: two known simulation accounts. -/
def wAccs : List Account := [⟨[1], 11⟩, ⟨[2], 22⟩]

/-- Witness scenario: one NFT, owned by the first known account. -/
def wKeeper : Keeper := ⟨fun _ => [⟨[1], [("denom1", "id1")]⟩]⟩

/-- Witness scenario: a ledger with no owned NFTs. -/
def wKeeperEmpty : Keeper := ⟨fun _ => []⟩

/-- Witness scenario: one NFT, owned by an address that is not a known account. -/
def wKeeperStranger : Keeper := ⟨fun _ => [⟨[9], [("denom1", "id1")]⟩]⟩

/-- Witness scenario: an execution engine that accepts everything. -/
def wDeliverOK : Tx → DeliverResult := fun _ => ⟨true, ""⟩

/-- Witness scenario: an execution engine that rejects everything with log "boom". -/
def wDeliverBad : Tx → DeliverResult := fun _ => ⟨false, "boom"⟩

/- Theorems. -/

theorem getRandomNFTFromOwner_of_noOwned (ctx : Context) (k : Keeper) (r : Rand)
    (h : noOwnedNFTs ctx k = true) :
    getRandomNFTFromOwner ctx k r = ([], "", "", r) := by
  have hf : (k.getOwners ctx).filter (fun o => !o.nfts.isEmpty) = [] := by
    rw [List.filter_eq_nil_iff]
    intro o ho
    have := (List.all_eq_true.mp h) o ho
    simp_all
  unfold getRandomNFTFromOwner
  simp [hf]

/-- C1: on a ledger snapshot with no owned NFTs (the sampler returns the empty-address
sentinel), each of Transfer, EditMetadata and Burn returns the NoOp operation message
with a nil error, builds no request, and hands nothing to the execution engine. -/
theorem no_owned_nfts_noop (ak : AccountKeeper) (k : Keeper)
    (deliver : Tx → DeliverResult) (r : Rand) (ctx : Context)
    (accs : List Account) (chainID : String)
    (h : noOwnedNFTs ctx k = true) :
    simulateMsgTransferNFT ak k deliver r ctx accs chainID
        = ⟨.noOp moduleName, [], none, none, none, []⟩ ∧
    simulateMsgEditNFTMetadata ak k deliver r ctx accs chainID
        = ⟨.noOp moduleName, [], none, none, none, []⟩ ∧
    simulateMsgBurnNFT ak k deliver r ctx accs chainID
        = ⟨.noOp moduleName, [], none, none, none, []⟩ := by
  refine ⟨?_, ?_, ?_⟩ <;>
    simp [simulateMsgTransferNFT, simulateMsgEditNFTMetadata, simulateMsgBurnNFT,
      getRandomNFTFromOwner_of_noOwned ctx k r h]

theorem no_owned_nfts_noop_witness :
    noOwnedNFTs wCtx wKeeperEmpty = true ∧
    simulateMsgTransferNFT wAK wKeeperEmpty wDeliverOK [0, 1, 2] wCtx wAccs "chain"
        = ⟨.noOp moduleName, [], none, none, none, []⟩ ∧
    simulateMsgEditNFTMetadata wAK wKeeperEmpty wDeliverOK [0, 1, 2] wCtx wAccs "chain"
        = ⟨.noOp moduleName, [], none, none, none, []⟩ ∧
    simulateMsgBurnNFT wAK wKeeperEmpty wDeliverOK [0, 1, 2] wCtx wAccs "chain"
        = ⟨.noOp moduleName, [], none, none, none, []⟩ :=
  ⟨by decide,
    no_owned_nfts_noop wAK wKeeperEmpty wDeliverOK [0, 1, 2] wCtx wAccs "chain"
      (by decide)⟩

theorem atMostOneDeliver_of (res : RunResult)
    (h : res.delivered = [] ∨
      ∃ tx m, res.builtMsg = some m ∧ tx.msgs = [m] ∧ res.delivered = [tx]) :
    atMostOneDeliver res := by
  rcases h with h | ⟨tx, m, h1, h2, h3⟩ <;>
    simp [atMostOneDeliver, *]

theorem transfer_atMostOne (ak : AccountKeeper) (k : Keeper)
    (deliver : Tx → DeliverResult) (r : Rand) (ctx : Context)
    (accs : List Account) (chainID : String) :
    atMostOneDeliver (simulateMsgTransferNFT ak k deliver r ctx accs chainID) := by
  apply atMostOneDeliver_of
  unfold simulateMsgTransferNFT
  dsimp only
  repeat' split
  all_goals first
    | (left; rfl)
    | (right; exact ⟨_, _, rfl, rfl, rfl⟩)

theorem edit_atMostOne (ak : AccountKeeper) (k : Keeper)
    (deliver : Tx → DeliverResult) (r : Rand) (ctx : Context)
    (accs : List Account) (chainID : String) :
    atMostOneDeliver (simulateMsgEditNFTMetadata ak k deliver r ctx accs chainID) := by
  apply atMostOneDeliver_of
  unfold simulateMsgEditNFTMetadata
  dsimp only
  repeat' split
  all_goals first
    | (left; rfl)
    | (right; exact ⟨_, _, rfl, rfl, rfl⟩)

theorem mint_atMostOne (ak : AccountKeeper) (k : Keeper)
    (deliver : Tx → DeliverResult) (r : Rand) (ctx : Context)
    (accs : List Account) (chainID : String) :
    atMostOneDeliver (simulateMsgMintNFT ak k deliver r ctx accs chainID) := by
  apply atMostOneDeliver_of
  unfold simulateMsgMintNFT
  dsimp only
  repeat' split
  all_goals first
    | (left; rfl)
    | (right; exact ⟨_, _, rfl, rfl, rfl⟩)

theorem burn_atMostOne (ak : AccountKeeper) (k : Keeper)
    (deliver : Tx → DeliverResult) (r : Rand) (ctx : Context)
    (accs : List Account) (chainID : String) :
    atMostOneDeliver (simulateMsgBurnNFT ak k deliver r ctx accs chainID) := by
  apply atMostOneDeliver_of
  unfold simulateMsgBurnNFT
  dsimp only
  repeat' split
  all_goals first
    | (left; rfl)
    | (right; exact ⟨_, _, rfl, rfl, rfl⟩)

/-- C7: every invocation of any of the four operations yields exactly one result (the
embedding functions are total), and the execution engine is invoked at most once per
invocation — the delivery trace is either empty (as it is on every NoOp and every
pre-submission failure branch, which build no request) or exactly the one transaction
carrying the single built request. -/
theorem one_outcome_at_most_one_deliver (ak : AccountKeeper) (k : Keeper)
    (deliver : Tx → DeliverResult) (r : Rand) (ctx : Context)
    (accs : List Account) (chainID : String) :
    atMostOneDeliver (simulateMsgTransferNFT ak k deliver r ctx accs chainID) ∧
    atMostOneDeliver (simulateMsgEditNFTMetadata ak k deliver r ctx accs chainID) ∧
    atMostOneDeliver (simulateMsgMintNFT ak k deliver r ctx accs chainID) ∧
    atMostOneDeliver (simulateMsgBurnNFT ak k deliver r ctx accs chainID) :=
  ⟨transfer_atMostOne ak k deliver r ctx accs chainID,
   edit_atMostOne ak k deliver r ctx accs chainID,
   mint_atMostOne ak k deliver r ctx accs chainID,
   burn_atMostOne ak k deliver r ctx accs chainID⟩

theorem transfer_delivery_classified (ak : AccountKeeper) (k : Keeper)
    (deliver : Tx → DeliverResult) (r : Rand) (ctx : Context)
    (accs : List Account) (chainID : String) :
    (simulateMsgTransferNFT ak k deliver r ctx accs chainID).delivered = [] ∨
    ∃ tx, (simulateMsgTransferNFT ak k deliver r ctx accs chainID).delivered = [tx] ∧
      classified deliver (simulateMsgTransferNFT ak k deliver r ctx accs chainID) tx := by
  unfold simulateMsgTransferNFT
  dsimp only
  repeat' split
  all_goals simp_all [classified, genTx]

theorem edit_delivery_classified (ak : AccountKeeper) (k : Keeper)
    (deliver : Tx → DeliverResult) (r : Rand) (ctx : Context)
    (accs : List Account) (chainID : String) :
    (simulateMsgEditNFTMetadata ak k deliver r ctx accs chainID).delivered = [] ∨
    ∃ tx, (simulateMsgEditNFTMetadata ak k deliver r ctx accs chainID).delivered = [tx] ∧
      classified deliver (simulateMsgEditNFTMetadata ak k deliver r ctx accs chainID) tx := by
  unfold simulateMsgEditNFTMetadata
  dsimp only
  repeat' split
  all_goals simp_all [classified, genTx]

theorem mint_delivery_classified (ak : AccountKeeper) (k : Keeper)
    (deliver : Tx → DeliverResult) (r : Rand) (ctx : Context)
    (accs : List Account) (chainID : String) :
    (simulateMsgMintNFT ak k deliver r ctx accs chainID).delivered = [] ∨
    ∃ tx, (simulateMsgMintNFT ak k deliver r ctx accs chainID).delivered = [tx] ∧
      classified deliver (simulateMsgMintNFT ak k deliver r ctx accs chainID) tx := by
  unfold simulateMsgMintNFT
  dsimp only
  repeat' split
  all_goals simp_all [classified, genTx]

theorem burn_delivery_classified (ak : AccountKeeper) (k : Keeper)
    (deliver : Tx → DeliverResult) (r : Rand) (ctx : Context)
    (accs : List Account) (chainID : String) :
    (simulateMsgBurnNFT ak k deliver r ctx accs chainID).delivered = [] ∨
    ∃ tx, (simulateMsgBurnNFT ak k deliver r ctx accs chainID).delivered = [tx] ∧
      classified deliver (simulateMsgBurnNFT ak k deliver r ctx accs chainID) tx := by
  unfold simulateMsgBurnNFT
  dsimp only
  repeat' split
  all_goals simp_all [classified, genTx]

/-- C2: every invocation of any of the four operations either never reaches
submission, or hands exactly one transaction to the execution engine and classifies
the raw result: an ok flag yields the Success operation message carrying the
submitted request with a nil error, and a non-ok flag yields a failure whose error is
exactly the engine's log text.  Each operation is characterized independently, so
every single invocation that reaches submission is covered, regardless of what the
other operation kinds would do at the same parameters. -/
theorem submission_classification (ak : AccountKeeper) (k : Keeper)
    (deliver : Tx → DeliverResult) (r : Rand) (ctx : Context)
    (accs : List Account) (chainID : String) :
    ((simulateMsgTransferNFT ak k deliver r ctx accs chainID).delivered = [] ∨
      ∃ tx, (simulateMsgTransferNFT ak k deliver r ctx accs chainID).delivered = [tx] ∧
        classified deliver (simulateMsgTransferNFT ak k deliver r ctx accs chainID) tx) ∧
    ((simulateMsgEditNFTMetadata ak k deliver r ctx accs chainID).delivered = [] ∨
      ∃ tx, (simulateMsgEditNFTMetadata ak k deliver r ctx accs chainID).delivered = [tx] ∧
        classified deliver (simulateMsgEditNFTMetadata ak k deliver r ctx accs chainID) tx) ∧
    ((simulateMsgMintNFT ak k deliver r ctx accs chainID).delivered = [] ∨
      ∃ tx, (simulateMsgMintNFT ak k deliver r ctx accs chainID).delivered = [tx] ∧
        classified deliver (simulateMsgMintNFT ak k deliver r ctx accs chainID) tx) ∧
    ((simulateMsgBurnNFT ak k deliver r ctx accs chainID).delivered = [] ∨
      ∃ tx, (simulateMsgBurnNFT ak k deliver r ctx accs chainID).delivered = [tx] ∧
        classified deliver (simulateMsgBurnNFT ak k deliver r ctx accs chainID) tx) :=
  ⟨transfer_delivery_classified ak k deliver r ctx accs chainID,
   edit_delivery_classified ak k deliver r ctx accs chainID,
   mint_delivery_classified ak k deliver r ctx accs chainID,
   burn_delivery_classified ak k deliver r ctx accs chainID⟩

/-- C4: two runs of the same operation kind from an identical random-source state and
identical ledger, account and context state produce identical results — in particular
identical built requests, with every generated id, denom and token-URI string equal. -/
theorem same_seed_same_requests (ak : AccountKeeper) (k : Keeper)
    (deliver : Tx → DeliverResult) (ctx : Context) (accs : List Account)
    (chainID : String) (r r' : Rand) (h : r = r') :
    simulateMsgTransferNFT ak k deliver r ctx accs chainID
        = simulateMsgTransferNFT ak k deliver r' ctx accs chainID ∧
    simulateMsgEditNFTMetadata ak k deliver r ctx accs chainID
        = simulateMsgEditNFTMetadata ak k deliver r' ctx accs chainID ∧
    simulateMsgMintNFT ak k deliver r ctx accs chainID
        = simulateMsgMintNFT ak k deliver r' ctx accs chainID ∧
    simulateMsgBurnNFT ak k deliver r ctx accs chainID
        = simulateMsgBurnNFT ak k deliver r' ctx accs chainID := by
  subst h
  exact ⟨rfl, rfl, rfl, rfl⟩

theorem same_seed_same_requests_witness :
    ([0, 1, 2] : Rand) = [0, 1, 2] ∧
    simulateMsgTransferNFT wAK wKeeper wDeliverOK [0, 1, 2] wCtx wAccs "chain"
        = simulateMsgTransferNFT wAK wKeeper wDeliverOK [0, 1, 2] wCtx wAccs "chain" ∧
    simulateMsgEditNFTMetadata wAK wKeeper wDeliverOK [0, 1, 2] wCtx wAccs "chain"
        = simulateMsgEditNFTMetadata wAK wKeeper wDeliverOK [0, 1, 2] wCtx wAccs "chain" ∧
    simulateMsgMintNFT wAK wKeeper wDeliverOK [0, 1, 2] wCtx wAccs "chain"
        = simulateMsgMintNFT wAK wKeeper wDeliverOK [0, 1, 2] wCtx wAccs "chain" ∧
    simulateMsgBurnNFT wAK wKeeper wDeliverOK [0, 1, 2] wCtx wAccs "chain"
        = simulateMsgBurnNFT wAK wKeeper wDeliverOK [0, 1, 2] wCtx wAccs "chain" :=
  ⟨rfl, same_seed_same_requests wAK wKeeper wDeliverOK wCtx wAccs "chain"
    [0, 1, 2] [0, 1, 2] rfl⟩

theorem randomFees_le (r : Rand) (s : Nat) (f : Nat) (r' : Rand)
    (h : randomFees r s = .ok (f, r')) : f ≤ s := by
  unfold randomFees at h
  split at h
  · cases h
  · rename_i hs
    cases r with
    | nil =>
      simp only [randDraw] at h
      cases h
      omega
    | cons x xs =>
      simp only [randDraw] at h
      cases h
      have := Nat.mod_lt x (Nat.pos_of_ne_zero hs)
      omega

theorem transfer_feeWithin (ak : AccountKeeper) (k : Keeper)
    (deliver : Tx → DeliverResult) (r : Rand) (ctx : Context)
    (accs : List Account) (chainID : String) :
    feeWithinSpendable ak ctx (simulateMsgTransferNFT ak k deliver r ctx accs chainID) := by
  unfold feeWithinSpendable simulateMsgTransferNFT
  dsimp only
  repeat' split
  all_goals first
    | (intro tx htx; exact absurd htx (List.not_mem_nil tx))
    | (intro tx htx; rw [List.mem_singleton] at htx; subst htx
       exact ⟨_, rfl, randomFees_le _ _ _ _ (by assumption)⟩)

theorem edit_feeWithin (ak : AccountKeeper) (k : Keeper)
    (deliver : Tx → DeliverResult) (r : Rand) (ctx : Context)
    (accs : List Account) (chainID : String) :
    feeWithinSpendable ak ctx (simulateMsgEditNFTMetadata ak k deliver r ctx accs chainID) := by
  unfold feeWithinSpendable simulateMsgEditNFTMetadata
  dsimp only
  repeat' split
  all_goals first
    | (intro tx htx; exact absurd htx (List.not_mem_nil tx))
    | (intro tx htx; rw [List.mem_singleton] at htx; subst htx
       exact ⟨_, rfl, randomFees_le _ _ _ _ (by assumption)⟩)

theorem mint_feeWithin (ak : AccountKeeper) (k : Keeper)
    (deliver : Tx → DeliverResult) (r : Rand) (ctx : Context)
    (accs : List Account) (chainID : String) :
    feeWithinSpendable ak ctx (simulateMsgMintNFT ak k deliver r ctx accs chainID) := by
  unfold feeWithinSpendable simulateMsgMintNFT
  dsimp only
  repeat' split
  all_goals first
    | (intro tx htx; exact absurd htx (List.not_mem_nil tx))
    | (intro tx htx; rw [List.mem_singleton] at htx; subst htx
       exact ⟨_, rfl, randomFees_le _ _ _ _ (by assumption)⟩)

theorem burn_feeWithin (ak : AccountKeeper) (k : Keeper)
    (deliver : Tx → DeliverResult) (r : Rand) (ctx : Context)
    (accs : List Account) (chainID : String) :
    feeWithinSpendable ak ctx (simulateMsgBurnNFT ak k deliver r ctx accs chainID) := by
  unfold feeWithinSpendable simulateMsgBurnNFT
  dsimp only
  repeat' split
  all_goals first
    | (intro tx htx; exact absurd htx (List.not_mem_nil tx))
    | (intro tx htx; rw [List.mem_singleton] at htx; subst htx
       exact ⟨_, rfl, randomFees_le _ _ _ _ (by assumption)⟩)

/-- C5: for every invocation of any of the four operation kinds, the fee attached to
any transaction handed to the execution engine never exceeds the acting account's
spendable balance at the context's block time. -/
theorem fee_never_exceeds_spendable (ak : AccountKeeper) (k : Keeper)
    (deliver : Tx → DeliverResult) (r : Rand) (ctx : Context)
    (accs : List Account) (chainID : String) :
    feeWithinSpendable ak ctx (simulateMsgTransferNFT ak k deliver r ctx accs chainID) ∧
    feeWithinSpendable ak ctx (simulateMsgEditNFTMetadata ak k deliver r ctx accs chainID) ∧
    feeWithinSpendable ak ctx (simulateMsgMintNFT ak k deliver r ctx accs chainID) ∧
    feeWithinSpendable ak ctx (simulateMsgBurnNFT ak k deliver r ctx accs chainID) :=
  ⟨transfer_feeWithin ak k deliver r ctx accs chainID,
   edit_feeWithin ak k deliver r ctx accs chainID,
   mint_feeWithin ak k deliver r ctx accs chainID,
   burn_feeWithin ak k deliver r ctx accs chainID⟩

theorem fee_never_exceeds_spendable_witness :
    (⟨[.transferNFT [1] [1] "denom1" "id1"], 1, "chain", [7], [3], [11]⟩ : Tx)
        ∈ (simulateMsgTransferNFT wAK wKeeper wDeliverOK [0, 0, 0, 0] wCtx wAccs
            "chain").delivered ∧
    ∃ a, (simulateMsgTransferNFT wAK wKeeper wDeliverOK [0, 0, 0, 0] wCtx wAccs
            "chain").actor = some a ∧
      (⟨[.transferNFT [1] [1] "denom1" "id1"], 1, "chain", [7], [3], [11]⟩ : Tx).fee
        ≤ (wAK.getAccount wCtx a).spendableAt wCtx.blockTime :=
  ⟨by decide,
    (fee_never_exceeds_spendable wAK wKeeper wDeliverOK [0, 0, 0, 0] wCtx wAccs
      "chain").1 _ (by decide)⟩

/-- C3: whenever fee resolution fails (the acting account's spendable balance is
zero), the operation returns the failure outcome carrying exactly the fee resolver's
error, builds no request, and hands nothing to the execution engine.  Each conjunct
carries only its own operation's reachability conditions: for Transfer, that the
sampler produced a non-empty owner who is a known account with zero balance; for
Mint, only that its independently drawn actor has zero balance (no condition on the
ledger at all). -/
theorem fee_failure_propagates (ak : AccountKeeper) (k : Keeper)
    (deliver : Tx → DeliverResult) (r : Rand) (ctx : Context)
    (accs : List Account) (chainID : String) :
    (∀ (o : Addr) (dn nid : String) (r1 : Rand) (sa : Account),
      getRandomNFTFromOwner ctx k r = (o, dn, nid, r1) →
      o.isEmpty = false →
      findAccount accs o = some sa →
      (ak.getAccount ctx sa.address).spendableAt ctx.blockTime = 0 →
      simulateMsgTransferNFT ak k deliver r ctx accs chainID
        = ⟨.noOp moduleName, [], some feeErrMsg, none, some sa.address, []⟩) ∧
    ((ak.getAccount ctx (randomAcc r accs).1.address).spendableAt ctx.blockTime = 0 →
      simulateMsgMintNFT ak k deliver r ctx accs chainID
        = ⟨.noOp moduleName, [], some feeErrMsg, none,
            some (randomAcc r accs).1.address, []⟩) := by
  constructor
  · intro o dn nid r1 sa h1 h2 h3 h4
    unfold simulateMsgTransferNFT
    rw [h1]
    dsimp only
    rw [h2]
    simp only [Bool.false_eq_true, if_false]
    rcases hra : randomAcc r1 accs with ⟨rec, r2⟩
    rw [h3]
    dsimp only
    rw [h4]
    simp [randomFees]
  · intro h5
    unfold simulateMsgMintNFT
    rcases hra : randomAcc r accs with ⟨sa1, r2⟩
    rw [hra] at h5
    dsimp only at h5 ⊢
    rcases hrb : randomAcc r2 accs with ⟨sa2, r3⟩
    dsimp only
    rw [h5]
    simp [randomFees]

theorem fee_failure_propagates_witness :
    getRandomNFTFromOwner wCtx wKeeper [0, 0, 0, 0] = ([1], "denom1", "id1", [0, 0]) ∧
    ([1] : Addr).isEmpty = false ∧
    findAccount wAccs [1] = some ⟨[1], 11⟩ ∧
    (wAKZero.getAccount wCtx (⟨[1], 11⟩ : Account).address).spendableAt wCtx.blockTime
        = 0 ∧
    simulateMsgTransferNFT wAKZero wKeeper wDeliverOK [0, 0, 0, 0] wCtx wAccs "chain"
        = ⟨.noOp moduleName, [], some feeErrMsg, none,
            some (⟨[1], 11⟩ : Account).address, []⟩ ∧
    (wAKZero.getAccount wCtx (randomAcc [0, 0, 0, 0] wAccs).1.address).spendableAt
        wCtx.blockTime = 0 ∧
    simulateMsgMintNFT wAKZero wKeeperEmpty wDeliverOK [0, 0, 0, 0] wCtx wAccs "chain"
        = ⟨.noOp moduleName, [], some feeErrMsg, none,
            some (randomAcc [0, 0, 0, 0] wAccs).1.address, []⟩ :=
  ⟨by decide, by decide, by decide, by decide,
    (fee_failure_propagates wAKZero wKeeper wDeliverOK [0, 0, 0, 0] wCtx wAccs
        "chain").1 [1] "denom1" "id1" [0, 0] ⟨[1], 11⟩
      (by decide) (by decide) (by decide) (by decide),
    by decide,
    (fee_failure_propagates wAKZero wKeeperEmpty wDeliverOK [0, 0, 0, 0] wCtx wAccs
        "chain").2 (by decide)⟩

/-- C6: whenever the sampled NFT owner's address is non-empty but not found among the
known simulation accounts, each of Transfer, EditMetadata and Burn returns the
account-not-found error as its outcome, builds no request, and hands nothing to the
execution engine (only the current invocation is aborted: the run returns normally). -/
theorem owner_not_found_aborts (ak : AccountKeeper) (k : Keeper)
    (deliver : Tx → DeliverResult) (r : Rand) (ctx : Context)
    (accs : List Account) (chainID : String)
    (o : Addr) (dn nid : String) (r1 : Rand)
    (h1 : getRandomNFTFromOwner ctx k r = (o, dn, nid, r1))
    (h2 : o.isEmpty = false)
    (h3 : findAccount accs o = none) :
    simulateMsgTransferNFT ak k deliver r ctx accs chainID
        = ⟨.noOp moduleName, [],
            some ("account " ++ addrStr o ++ " not found"), none, none, []⟩ ∧
    simulateMsgEditNFTMetadata ak k deliver r ctx accs chainID
        = ⟨.noOp moduleName, [],
            some ("account " ++ addrStr o ++ " not found"), none, none, []⟩ ∧
    simulateMsgBurnNFT ak k deliver r ctx accs chainID
        = ⟨.noOp moduleName, [],
            some ("account " ++ addrStr o ++ " not found"), none, none, []⟩ := by
  refine ⟨?_, ?_, ?_⟩
  · unfold simulateMsgTransferNFT
    rw [h1]
    dsimp only
    rw [h2]
    simp only [Bool.false_eq_true, if_false]
    rcases hra : randomAcc r1 accs with ⟨rec, r2⟩
    rw [h3]
  · unfold simulateMsgEditNFTMetadata
    rw [h1]
    dsimp only
    rw [h2]
    simp only [Bool.false_eq_true, if_false]
    rw [h3]
  · unfold simulateMsgBurnNFT
    rw [h1]
    dsimp only
    rw [h2]
    simp only [Bool.false_eq_true, if_false]
    rw [h3]

theorem owner_not_found_aborts_witness :
    getRandomNFTFromOwner wCtx wKeeperStranger [0, 0, 0, 0]
        = ([9], "denom1", "id1", [0, 0]) ∧
    ([9] : Addr).isEmpty = false ∧
    findAccount wAccs [9] = none ∧
    (simulateMsgTransferNFT wAK wKeeperStranger wDeliverOK [0, 0, 0, 0] wCtx wAccs
        "chain"
        = ⟨.noOp moduleName, [],
            some ("account " ++ addrStr [9] ++ " not found"), none, none, []⟩ ∧
     simulateMsgEditNFTMetadata wAK wKeeperStranger wDeliverOK [0, 0, 0, 0] wCtx wAccs
        "chain"
        = ⟨.noOp moduleName, [],
            some ("account " ++ addrStr [9] ++ " not found"), none, none, []⟩ ∧
     simulateMsgBurnNFT wAK wKeeperStranger wDeliverOK [0, 0, 0, 0] wCtx wAccs "chain"
        = ⟨.noOp moduleName, [],
            some ("account " ++ addrStr [9] ++ " not found"), none, none, []⟩) :=
  ⟨by decide, by decide, by decide,
    owner_not_found_aborts wAK wKeeperStranger wDeliverOK [0, 0, 0, 0] wCtx wAccs
      "chain" [9] "denom1" "id1" [0, 0] (by decide) (by decide) (by decide)⟩

/-- C9: Mint never returns a NoOp-with-nil-error: every Mint invocation either carries
an error (fee resolution or execution rejection) or is a Success operation message
with a nil error. -/
theorem mint_never_silent_noop (ak : AccountKeeper) (k : Keeper)
    (deliver : Tx → DeliverResult) (r : Rand) (ctx : Context)
    (accs : List Account) (chainID : String) :
    (∃ e, (simulateMsgMintNFT ak k deliver r ctx accs chainID).err = some e) ∨
    (∃ m, (simulateMsgMintNFT ak k deliver r ctx accs chainID).opMsg = .op m true ""
      ∧ (simulateMsgMintNFT ak k deliver r ctx accs chainID).err = none) := by
  unfold simulateMsgMintNFT
  dsimp only
  repeat' split
  all_goals simp

theorem randomAcc_head (x : Nat) (xs : Rand) (accs : List Account)
    (h : x < accs.length) :
    randomAcc (x :: xs) accs = (accs.get ⟨x, h⟩, xs) := by
  unfold randomAcc randDraw
  dsimp only
  rw [Nat.mod_eq_of_lt h, List.getD_eq_getElem _ _ h]
  rfl

theorem randomFees_nil_pos (s : Nat) (h : 0 < s) :
    randomFees [] s = .ok (1, []) := by
  unfold randomFees randDraw
  rw [if_neg (by omega)]

theorem randCharsOfLength_nil (n : Nat) :
    randCharsOfLength [] n = (List.replicate n 'a', []) := by
  induction n with
  | zero => rfl
  | succ n ih => simp [randCharsOfLength, randDraw, ih, List.replicate_succ, alphabet]

theorem randStringOfLength_nil (n : Nat) :
    randStringOfLength [] n = (⟨List.replicate n 'a'⟩, []) := by
  simp [randStringOfLength, randCharsOfLength_nil]

theorem randCharsOfLength_length (r : Rand) (n : Nat) :
    ((randCharsOfLength r n).1).length = n := by
  induction n generalizing r with
  | zero => rfl
  | succ n ih =>
    rw [randCharsOfLength]
    rcases hd : randDraw r alphabet.length with ⟨x, r1⟩
    dsimp only
    simp [ih]

theorem randStringOfLength_fst_length (r : Rand) (n : Nat) :
    ((randStringOfLength r n).1).length = n := by
  unfold randStringOfLength
  rcases hc : randCharsOfLength r n with ⟨cs, r2⟩
  have := randCharsOfLength_length r n
  rw [hc] at this
  exact this

/-- C8: Mint samples no existing NFT (its result never depends on the NFT keeper),
and the sender and recipient are two successive independent draws over the full
account list: for every pair of indices `(i, j)` — including `i = j`, so sender and
recipient can coincide — some random-source state makes Mint act with sender
`accs[i]` and recipient `accs[j]`. -/
theorem mint_pick_full_range (ak : AccountKeeper) (k : Keeper)
    (deliver : Tx → DeliverResult) (ctx : Context) (accs : List Account)
    (chainID : String) (i j : Nat)
    (hi : i < accs.length) (hj : j < accs.length)
    (hsp : 0 < (ak.getAccount ctx (accs.get ⟨i, hi⟩).address).spendableAt
        ctx.blockTime) :
    (∀ (k' : Keeper) (r : Rand),
        simulateMsgMintNFT ak k' deliver r ctx accs chainID
          = simulateMsgMintNFT ak k deliver r ctx accs chainID) ∧
    (simulateMsgMintNFT ak k deliver [i, j] ctx accs chainID).actor
        = some (accs.get ⟨i, hi⟩).address ∧
    (simulateMsgMintNFT ak k deliver [i, j] ctx accs chainID).builtMsg
        = some (.mintNFT (accs.get ⟨i, hi⟩).address (accs.get ⟨j, hj⟩).address
            ⟨List.replicate 10 'a'⟩ ⟨List.replicate 10 'a'⟩
            ⟨List.replicate 45 'a'⟩) := by
  refine ⟨fun k' r => rfl, ?_, ?_⟩ <;>
  · unfold simulateMsgMintNFT
    rw [randomAcc_head i [j] accs hi]
    dsimp only
    rw [randomAcc_head j [] accs hj]
    dsimp only
    rw [randomFees_nil_pos _ hsp]
    dsimp only
    rw [randStringOfLength_nil 10]
    dsimp only
    rw [randStringOfLength_nil 10]
    dsimp only
    rw [randStringOfLength_nil 45]
    dsimp only
    split <;> rfl

theorem mint_pick_full_range_witness :
    0 < wAccs.length ∧
    0 < (wAK.getAccount wCtx (wAccs.get ⟨0, by decide⟩).address).spendableAt
        wCtx.blockTime ∧
    ((∀ (k' : Keeper) (r : Rand),
        simulateMsgMintNFT wAK k' wDeliverOK r wCtx wAccs "chain"
          = simulateMsgMintNFT wAK wKeeper wDeliverOK r wCtx wAccs "chain") ∧
     (simulateMsgMintNFT wAK wKeeper wDeliverOK [0, 0] wCtx wAccs "chain").actor
        = some (wAccs.get ⟨0, by decide⟩).address ∧
     (simulateMsgMintNFT wAK wKeeper wDeliverOK [0, 0] wCtx wAccs "chain").builtMsg
        = some (.mintNFT (wAccs.get ⟨0, by decide⟩).address
            (wAccs.get ⟨0, by decide⟩).address ⟨List.replicate 10 'a'⟩
            ⟨List.replicate 10 'a'⟩ ⟨List.replicate 45 'a'⟩)) :=
  ⟨by decide, by decide,
    mint_pick_full_range wAK wKeeper wDeliverOK wCtx wAccs "chain" 0 0
      (by decide) (by decide) (by decide)⟩

theorem mint_builtMsg_shape (ak : AccountKeeper) (k : Keeper)
    (deliver : Tx → DeliverResult) (r : Rand) (ctx : Context)
    (accs : List Account) (chainID : String) :
    (simulateMsgMintNFT ak k deliver r ctx accs chainID).builtMsg = none ∨
    ∃ s rc nid dn uri,
      (simulateMsgMintNFT ak k deliver r ctx accs chainID).builtMsg
          = some (.mintNFT s rc nid dn uri) ∧
        nid.length = 10 ∧ dn.length = 10 ∧ uri.length = 45 := by
  unfold simulateMsgMintNFT
  dsimp only
  repeat' split
  all_goals first
    | (left; rfl)
    | (right
       exact ⟨_, _, _, _, _, rfl, randStringOfLength_fst_length _ _,
         randStringOfLength_fst_length _ _, randStringOfLength_fst_length _ _⟩)

theorem edit_builtMsg_shape (ak : AccountKeeper) (k : Keeper)
    (deliver : Tx → DeliverResult) (r : Rand) (ctx : Context)
    (accs : List Account) (chainID : String) :
    (simulateMsgEditNFTMetadata ak k deliver r ctx accs chainID).builtMsg = none ∨
    ∃ o nid dn uri,
      (simulateMsgEditNFTMetadata ak k deliver r ctx accs chainID).builtMsg
          = some (.editNFTMetadata o nid dn uri) ∧ uri.length = 45 := by
  unfold simulateMsgEditNFTMetadata
  dsimp only
  repeat' split
  all_goals first
    | (left; rfl)
    | (right
       exact ⟨_, _, _, _, rfl, randStringOfLength_fst_length _ _⟩)

/-- C10: every Mint invocation either builds no request or builds one whose generated
NFT id and denom are strings of exactly 10 characters and whose token-URI is a string
of exactly 45 characters, and every EditMetadata invocation either builds no request
or builds one whose generated token-URI is a string of exactly 45 characters.  Each
operation is characterized independently, so every single invocation that builds a
request is covered. -/
theorem built_string_lengths (ak : AccountKeeper) (k : Keeper)
    (deliver : Tx → DeliverResult) (r : Rand) (ctx : Context)
    (accs : List Account) (chainID : String) :
    ((simulateMsgMintNFT ak k deliver r ctx accs chainID).builtMsg = none ∨
      ∃ s rc nid dn uri,
        (simulateMsgMintNFT ak k deliver r ctx accs chainID).builtMsg
            = some (.mintNFT s rc nid dn uri) ∧
          nid.length = 10 ∧ dn.length = 10 ∧ uri.length = 45) ∧
    ((simulateMsgEditNFTMetadata ak k deliver r ctx accs chainID).builtMsg = none ∨
      ∃ o nid dn uri,
        (simulateMsgEditNFTMetadata ak k deliver r ctx accs chainID).builtMsg
            = some (.editNFTMetadata o nid dn uri) ∧ uri.length = 45) :=
  ⟨mint_builtMsg_shape ak k deliver r ctx accs chainID,
   edit_builtMsg_shape ak k deliver r ctx accs chainID⟩

end NFTSim
